import Mathlib

/-!
# ElementRendering_SDL: a shallow embedding of `src/headers/ElementRendering_SDL.h`

The header defines three immediate-mode drawing functions, `ButtonText`,
`ButtonIcon` and `Text`, on top of SDL2, SDL_image and SDL_ttf.  The libraries
themselves are not part of the repository, so their answers are a parameter
(`Backend`), and the effect of every library call on the outside world is
recorded in an explicit state (`World`) that is threaded through the functions.

Conventions of the embedding:

* a C pointer is an `Option`: `none` is the null pointer;
* a C `int` is an `Int`; `+` and `-` on `int` are taken modulo `2 ^ 32`
  (`wrap32`, the behaviour of the hardware where the C++ standard leaves signed
  overflow undefined), `/` is truncating division (`Int.tdiv`);
* an execution that reaches undefined behaviour (null dereference, vector index
  out of range, read of an uninitialised `int`) stops with a `Fault`;
* `cout << ... << endl` appends one line to `World.stdout`.
-/

namespace ElementRendering_SDL

/-! ## Machine integers -/

/-- Reduction of an integer to the range of a 32-bit two's-complement `int`. -/
def wrap32 (x : Int) : Int := (x + 2 ^ 31) % 2 ^ 32 - 2 ^ 31

/-- The value fits in a 32-bit `int`. -/
def InInt32 (x : Int) : Prop := -2 ^ 31 ≤ x ∧ x < 2 ^ 31

instance (x : Int) : Decidable (InInt32 x) := by
  unfold InInt32; exact inferInstance

/-- C `a + b` on `int`. -/
def c_add (a b : Int) : Int := wrap32 (a + b)

/-- C `a - b` on `int`. -/
def c_sub (a b : Int) : Int := wrap32 (a - b)

/-- C `a / b` on `int`: the quotient is truncated toward zero. -/
def c_div (a b : Int) : Int := Int.tdiv a b

/-- Conversion of an `int` argument to a `Uint8` parameter. -/
def toUint8 (x : Int) : Int := x % 256

/-! ## SDL data -/

/-- The `SDL_Color` struct. -/
structure SDL_Color where
  r : Nat
  g : Nat
  b : Nat
  a : Nat
  deriving DecidableEq, Repr

/-- The `SDL_Rect` struct. -/
structure SDL_Rect where
  x : Int
  y : Int
  w : Int
  h : Int
  deriving DecidableEq, Repr

/-- What a non-null `TTF_Font *` points to. -/
structure TTF_Font where
  addr : Nat
  deriving DecidableEq, Repr

/-- What a non-null `SDL_Surface *` points to; `w` and `h` are the fields read by `ButtonIcon`. -/
structure SDL_Surface where
  addr : Nat
  w : Int
  h : Int
  deriving DecidableEq, Repr

/-- What a non-null `SDL_Texture *` points to. -/
structure SDL_Texture where
  addr : Nat
  deriving DecidableEq, Repr

/-- A resource that is acquired from the libraries and has to be given back. -/
inductive Resource where
  | font (f : TTF_Font)
  | surface (sf : SDL_Surface)
  | texture (t : SDL_Texture)
  deriving DecidableEq, Repr

/-- A drawing command received by the renderer. -/
inductive Cmd where
  | setDrawColor (r g b a : Int)
  | fillRect (rect : SDL_Rect)
  | copy (texture : Option SDL_Texture) (dstrect : SDL_Rect)
  deriving DecidableEq, Repr

/-- Undefined behaviour reached by an execution. -/
inductive Fault where
  | nullDereference
  | vectorOutOfRange
  | uninitialisedRead
  deriving DecidableEq, Repr

/-- The answers of the three libraries, which are not part of the repository. -/
structure Backend where
  /-- Result of `TTF_OpenFont(file, ptsize)`. -/
  openFont : String → Int → Option TTF_Font
  /-- Result of `TTF_RenderText_Blended(font, text, fg)`. -/
  renderText : TTF_Font → String → SDL_Color → Option SDL_Surface
  /-- Result of `SDL_CreateTextureFromSurface(renderer, surface)`. -/
  createTexture : Option SDL_Surface → Option SDL_Texture
  /-- Width and height written by `SDL_QueryTexture`; `none` is a non-zero return. -/
  queryTexture : SDL_Texture → Option (Int × Int)
  /-- Result of `IMG_Load(file)`. -/
  imgLoad : String → Option SDL_Surface

/-- The state outside the functions: the renderer and the resources of the libraries. -/
structure World where
  /-- Drawing commands received by the renderer, oldest first. -/
  cmds : List Cmd
  /-- Arguments of the texture-creation requests received by the renderer, oldest first. -/
  uploads : List (Option SDL_Surface)
  /-- Resources that are acquired and not yet released. -/
  live : List Resource
  /-- Every acquisition, newest first. -/
  acquired : List Resource
  /-- Every release, newest first. -/
  released : List Resource
  /-- Lines written to standard output, oldest first. -/
  stdout : List String
  deriving DecidableEq, Repr

/-- A world in which nothing has happened yet. -/
def World.fresh : World := ⟨[], [], [], [], [], []⟩

/-! ## The library calls -/

/-- A resource comes to life. -/
def acquire (r : Resource) (s : World) : World :=
  { s with live := r :: s.live, acquired := r :: s.acquired }

/-- A resource is given back. -/
def release (r : Resource) (s : World) : World :=
  { s with live := s.live.erase r, released := r :: s.released }

/-- Output of one line: `cout << line << endl`. -/
def cout (line : String) (s : World) : World :=
  { s with stdout := s.stdout ++ [line] }

/-- A font that could be opened is a new resource. -/
def TTF_OpenFont (B : Backend) (file : String) (ptsize : Int) (s : World) :
    Option TTF_Font × World :=
  match B.openFont file ptsize with
  | none => (none, s)
  | some f => (some f, acquire (.font f) s)

/-- A text that could be rasterized is a new surface. -/
def TTF_RenderText_Blended (B : Backend) (font : TTF_Font) (text : String) (fg : SDL_Color)
    (s : World) : Option SDL_Surface × World :=
  match B.renderText font text fg with
  | none => (none, s)
  | some sf => (some sf, acquire (.surface sf) s)

/-- The renderer is asked for a texture of `surface`; a texture that could be created is
a new resource. -/
def SDL_CreateTextureFromSurface (B : Backend) (surface : Option SDL_Surface) (s : World) :
    Option SDL_Texture × World :=
  let s := { s with uploads := s.uploads ++ [surface] }
  match B.createTexture surface with
  | none => (none, s)
  | some t => (some t, acquire (.texture t) s)

/-- The size of a texture; the format and access out-parameters are `nullptr`. -/
def SDL_QueryTexture (B : Backend) (texture : SDL_Texture) : Option (Int × Int) :=
  B.queryTexture texture

/-- An image that could be decoded is a new surface. -/
def IMG_Load (B : Backend) (file : String) (s : World) : Option SDL_Surface × World :=
  match B.imgLoad file with
  | none => (none, s)
  | some sf => (some sf, acquire (.surface sf) s)

/-- The constant `SDL_ALPHA_OPAQUE` of `SDL_pixels.h`. -/
def SDL_ALPHA_OPAQUE : Int := 255

/-- The alpha modulation of a surface is not part of `World`: the call leaves it as it is. -/
def SDL_SetSurfaceAlphaMod (_surface : Option SDL_Surface) (_alpha : Int) (s : World) : World := s

/-- The font is given back. -/
def TTF_CloseFont (font : TTF_Font) (s : World) : World := release (.font font) s

/-- The surface is given back. -/
def SDL_FreeSurface (surface : SDL_Surface) (s : World) : World := release (.surface surface) s

/-- The texture is given back. -/
def SDL_DestroyTexture (texture : SDL_Texture) (s : World) : World := release (.texture texture) s

/-- The parameters `r`, `g`, `b`, `a` of the C function are `Uint8`. -/
def SDL_SetRenderDrawColor (r g b a : Int) (s : World) : World :=
  { s with cmds := s.cmds ++ [.setDrawColor (toUint8 r) (toUint8 g) (toUint8 b) (toUint8 a)] }

/-- The renderer fills `rect` with the current draw colour. -/
def SDL_RenderFillRect (rect : SDL_Rect) (s : World) : World :=
  { s with cmds := s.cmds ++ [.fillRect rect] }

/-- The call `SDL_RenderCopy(renderer, texture, nullptr, &dstrect)`: the whole texture. -/
def SDL_RenderCopy (texture : Option SDL_Texture) (dstrect : SDL_Rect) (s : World) : World :=
  { s with cmds := s.cmds ++ [.copy texture dstrect] }

/-! ## The three functions of the header -/

/-- Line 83: the destination rectangle of the text of `ButtonText`. -/
def fontRect (rectX rectY rectWidth rectHeight larguraFonte alturaFonte : Int) : SDL_Rect :=
  ⟨c_sub (c_add rectX (c_div rectWidth 2)) (c_div larguraFonte 2),
   c_sub (c_add rectY (c_div rectHeight 2)) (c_div alturaFonte 2),
   larguraFonte, alturaFonte⟩

/-- Lines 50-89. -/
def ButtonText (B : Backend) (rectX rectY rectWidth rectHeight : Int) (text : String)
    (fontSize : Int) (fontColor : SDL_Color) (bgColor : List Int) (fontPath : String)
    (s : World) : Except Fault Int × World :=
  match TTF_OpenFont B fontPath fontSize s with
  | (none, s) =>
    let s := cout "Fonte não existe dentro da pasta assets/fontes/" s
    (.ok (-1), s)
  | (some fontMenu, s) =>
    match TTF_RenderText_Blended B fontMenu text fontColor s with
    | (none, s) =>
      let s := cout "Verifique a cor da fonte, ou o texto inserido. Não foi possivel carregar." s
      let s := TTF_CloseFont fontMenu s
      (.ok (-2), s)
    | (some fontSurface, s) =>
      match SDL_CreateTextureFromSurface B (some fontSurface) s with
      | (none, s) =>
        let s := cout "Não foi possivel criar uma superficie com o texto escolhido." s
        let s := TTF_CloseFont fontMenu s
        let s := SDL_FreeSurface fontSurface s
        (.ok (-3), s)
      | (some fontTexture, s) =>
        match SDL_QueryTexture B fontTexture with
        | none =>
          let s := cout "Não foi possivel capturar os dados da textura da fonte, tais como, largura, altura..." s
          let s := TTF_CloseFont fontMenu s
          let s := SDL_FreeSurface fontSurface s
          let s := SDL_DestroyTexture fontTexture s
          (.ok (-4), s)
        | some (larguraFonte, alturaFonte) =>
          let fontRect := fontRect rectX rectY rectWidth rectHeight larguraFonte alturaFonte
          match bgColor[0]?, bgColor[1]?, bgColor[2]?, bgColor[3]? with
          | some r, some g, some b, some a =>
            let s := SDL_SetRenderDrawColor r g b a s
            let fontRectBack : SDL_Rect := ⟨rectX, rectY, rectWidth, rectHeight⟩
            let s := SDL_RenderFillRect fontRectBack s
            let s := SDL_RenderCopy (some fontTexture) fontRect s
            (.ok 0, s)
          | _, _, _, _ => (.error .vectorOutOfRange, s)

/-- Lines 119-135. -/
def ButtonIcon (B : Backend) (rectX rectY rectWidth rectHeight : Int) (iconPath : String)
    (bgColor : List Int) (s : World) : Except Fault Int × World :=
  match IMG_Load B iconPath s with
  | (surface, s) =>
    let s := SDL_SetSurfaceAlphaMod surface SDL_ALPHA_OPAQUE s
    match SDL_CreateTextureFromSurface B surface s with
    | (icon, s) =>
      match surface with
      | none => (.error .nullDereference, s)
      | some sf =>
        let iconRect : SDL_Rect := ⟨rectX, rectY, sf.w, sf.h⟩
        let s := cout (toString sf.w) s
        let bgRect : SDL_Rect := ⟨rectX, rectY, 30, 30⟩
        match bgColor[0]?, bgColor[1]?, bgColor[2]?, bgColor[3]? with
        | some r, some g, some b, some a =>
          let s := SDL_SetRenderDrawColor r g b a s
          let s := SDL_RenderFillRect bgRect s
          let s := SDL_RenderCopy icon iconRect s
          (.ok 0, s)
        | _, _, _, _ => (.error .vectorOutOfRange, s)

/-- Lines 166-193. The function is `void`: a normal return is `.ok ()`. -/
def Text (B : Backend) (fontPath : String) (fontSize : Int) (fontColor : SDL_Color)
    (text : String) (fontX fontY : Int) (s : World) : Except Fault Unit × World :=
  match TTF_OpenFont B fontPath fontSize s with
  | (none, s) =>
    let s := cout "Fonte não existe." s
    (.ok (), s)
  | (some font, s) =>
    match TTF_RenderText_Blended B font text fontColor s with
    | (none, s) =>
      let s := TTF_CloseFont font s
      let s := cout "Superfice para fonte não foi criada, verifique o texto inserido ou a cor." s
      (.ok (), s)
    | (some surface, s) =>
      match SDL_CreateTextureFromSurface B (some surface) s with
      | (none, s) =>
        let s := TTF_CloseFont font s
        let s := SDL_FreeSurface surface s
        let s := cout "Textura não foi criada, verifique se o renderer " s
        (.ok (), s)
      | (some fontTexture, s) =>
        match SDL_QueryTexture B fontTexture with
        | none => (.error .uninitialisedRead, s)
        | some (fontW, fontH) =>
          let fontRect : SDL_Rect := ⟨fontX, fontY, fontW, fontH⟩
          let s := SDL_RenderCopy (some fontTexture) fontRect s
          (.ok (), s)

/-! ## Specification vocabulary -/

/-- Neither the sum nor the difference on line 83 leaves the range of `int`
on one axis (`pos` is `rectX` or `rectY`). -/
def NoOverflow (pos size textSize : Int) : Prop :=
  InInt32 (pos + c_div size 2) ∧ InInt32 (pos + c_div size 2 - c_div textSize 2)

instance (pos size textSize : Int) : Decidable (NoOverflow pos size textSize) := by
  unfold NoOverflow; exact inferInstance

/-- The world `post` after a call is the world `s` before it, as far as the renderer's
drawing commands and the live resources go, and the call released, exactly once, each
resource `rs` that it acquired. -/
def Restored (s post : World) : Prop :=
  post.cmds = s.cmds ∧ post.live = s.live ∧
    ∃ rs : List Resource, rs.Nodup ∧ post.acquired = rs ++ s.acquired ∧
      post.released = rs ++ s.released

/-! ## Example backends -/

/-- A backend on which every stage succeeds; the text texture is 51 x 15, the icon 24 x 24. -/
def goodBackend : Backend where
  openFont := fun _ _ => some ⟨1⟩
  renderText := fun _ _ _ => some ⟨2, 51, 15⟩
  createTexture := fun _ => some ⟨3⟩
  queryTexture := fun _ => some (51, 15)
  imgLoad := fun _ => some ⟨4, 24, 24⟩

/-- A backend on which no file can be opened. -/
def noFileBackend : Backend where
  openFont := fun _ _ => none
  renderText := fun _ _ _ => none
  createTexture := fun _ => none
  queryTexture := fun _ => none
  imgLoad := fun _ => none

/-- A backend on which the font loads and the text is rasterized, but no texture can be
created. -/
def noTextureBackend : Backend where
  openFont := fun _ _ => some ⟨1⟩
  renderText := fun _ _ _ => some ⟨2, 51, 15⟩
  createTexture := fun _ => none
  queryTexture := fun _ => none
  imgLoad := fun _ => some ⟨4, 24, 24⟩

/-- The font colour `{255, 255, 255, 255}` of the examples in the header. -/
def white : SDL_Color := ⟨255, 255, 255, 255⟩

/-! ## Auxiliary facts -/

theorem wrap32_of_inInt32 {x : Int} (hx : InInt32 x) : wrap32 x = x := by
  unfold InInt32 at hx
  unfold wrap32
  omega

theorem toUint8_of_channel {c : Int} (hc : 0 ≤ c ∧ c ≤ 255) : toUint8 c = c := by
  unfold toUint8
  omega

theorem channels_of_length {bgColor : List Int} (hbg : 4 ≤ bgColor.length) :
    ∃ r g b a, bgColor[0]? = some r ∧ bgColor[1]? = some g ∧ bgColor[2]? = some b ∧
      bgColor[3]? = some a := by
  match bgColor, hbg with
  | r :: g :: b :: a :: _, _ => exact ⟨r, g, b, a, by simp, by simp, by simp, by simp⟩

/-- The horizontal (or vertical) coordinate of line 83 when nothing overflows. -/
theorem centre_coordinate {pos size textSize : Int} (hov : NoOverflow pos size textSize) :
    c_sub (c_add pos (c_div size 2)) (c_div textSize 2)
      = pos + c_div size 2 - c_div textSize 2 := by
  obtain ⟨h1, h2⟩ := hov
  unfold c_sub c_add
  rw [wrap32_of_inInt32 h1, wrap32_of_inInt32 h2]

theorem c_div_two_of_nonneg {a : Int} (ha : 0 ≤ a) : c_div a 2 = a / 2 := by
  unfold c_div
  exact Int.tdiv_eq_ediv ha (by decide)

/-! ## The claims -/

/-- C1. The value returned by `ButtonText` names the first stage of the backend that
fails, in the order font load, rasterization, texture upload, size query: it is `-1`
exactly when the font does not load, `-2` exactly when the font loads and the
rasterization fails, `-3` exactly when these two succeed and the upload fails, `-4`
exactly when these three succeed and the size query fails, `0` exactly when all four
succeed, and it is never anything else. The vector `bgColor` has the four elements the
function reads on line 84. -/
theorem ButtonText_return_code (B : Backend) (rectX rectY rectWidth rectHeight : Int)
    (text : String) (fontSize : Int) (fontColor : SDL_Color) (bgColor : List Int)
    (fontPath : String) (s : World) (hbg : 4 ≤ bgColor.length) :
    (((ButtonText B rectX rectY rectWidth rectHeight text fontSize fontColor bgColor fontPath s).1
        = .ok (-1)) ↔ B.openFont fontPath fontSize = none) ∧
    (((ButtonText B rectX rectY rectWidth rectHeight text fontSize fontColor bgColor fontPath s).1
        = .ok (-2)) ↔
      ∃ f, B.openFont fontPath fontSize = some f ∧ B.renderText f text fontColor = none) ∧
    (((ButtonText B rectX rectY rectWidth rectHeight text fontSize fontColor bgColor fontPath s).1
        = .ok (-3)) ↔
      ∃ f sf, B.openFont fontPath fontSize = some f ∧ B.renderText f text fontColor = some sf ∧
        B.createTexture (some sf) = none) ∧
    (((ButtonText B rectX rectY rectWidth rectHeight text fontSize fontColor bgColor fontPath s).1
        = .ok (-4)) ↔
      ∃ f sf t, B.openFont fontPath fontSize = some f ∧ B.renderText f text fontColor = some sf ∧
        B.createTexture (some sf) = some t ∧ B.queryTexture t = none) ∧
    (((ButtonText B rectX rectY rectWidth rectHeight text fontSize fontColor bgColor fontPath s).1
        = .ok 0) ↔
      ∃ f sf t wh, B.openFont fontPath fontSize = some f ∧
        B.renderText f text fontColor = some sf ∧ B.createTexture (some sf) = some t ∧
        B.queryTexture t = some wh) ∧
    (ButtonText B rectX rectY rectWidth rectHeight text fontSize fontColor bgColor fontPath s).1
      ∈ [Except.ok (-1), .ok (-2), .ok (-3), .ok (-4), .ok 0] := by
  obtain ⟨r, g, b, a, h0, h1, h2, h3⟩ := channels_of_length hbg
  cases hF : B.openFont fontPath fontSize with
  | none => simp [ButtonText, TTF_OpenFont, hF]
  | some f =>
    cases hS : B.renderText f text fontColor with
    | none => simp [ButtonText, TTF_OpenFont, TTF_RenderText_Blended, hF, hS]
    | some sf =>
      cases hT : B.createTexture (some sf) with
      | none =>
        simp [ButtonText, TTF_OpenFont, TTF_RenderText_Blended, SDL_CreateTextureFromSurface,
          hF, hS, hT]
      | some t =>
        cases hQ : B.queryTexture t with
        | none =>
          simp [ButtonText, TTF_OpenFont, TTF_RenderText_Blended, SDL_CreateTextureFromSurface,
            SDL_QueryTexture, hF, hS, hT, hQ]
        | some wh =>
          obtain ⟨w, h⟩ := wh
          simp [ButtonText, TTF_OpenFont, TTF_RenderText_Blended, SDL_CreateTextureFromSurface,
            SDL_QueryTexture, hF, hS, hT, hQ, h0, h1, h2, h3]

/-- Witness of C1: the example call of the header on a backend where every stage
succeeds, so that `0` is returned exactly because all four stages succeed. -/
theorem ButtonText_return_code_witness :
    4 ≤ [(0 : Int), 0, 0, 255].length ∧
    (((ButtonText goodBackend 0 0 100 32 "TESTE" 14 white [0, 0, 0, 255]
        "assets/fonts/Roboto-Bold.ttf" World.fresh).1 = .ok 0) ↔
      ∃ f sf t wh, goodBackend.openFont "assets/fonts/Roboto-Bold.ttf" 14 = some f ∧
        goodBackend.renderText f "TESTE" white = some sf ∧
        goodBackend.createTexture (some sf) = some t ∧ goodBackend.queryTexture t = some wh) :=
  ⟨by decide,
   (ButtonText_return_code goodBackend 0 0 100 32 "TESTE" 14 white [0, 0, 0, 255]
      "assets/fonts/Roboto-Bold.ttf" World.fresh (by decide)).2.2.2.2.1⟩

/-- C2. When the font loads, the text is rasterized, the texture is created and its size
is queried as `(w, h)`, `ButtonText` called with the four-element `bgColor = [r, g, b, a]`,
every channel in `[0, 255]`, returns `0` and gives the renderer exactly three drawing
commands, in this order: set the draw colour to `(r, g, b, a)`; fill the rectangle
`(rectX, rectY, rectWidth, rectHeight)`; copy the text texture to the rectangle of line 83,
`(rectX + rectWidth / 2 - w / 2, rectY + rectHeight / 2 - h / 2, w, h)` in the arithmetic of
C `int`. The fill therefore comes before the copy. -/
theorem ButtonText_commands (B : Backend) (rectX rectY rectWidth rectHeight : Int)
    (text : String) (fontSize : Int) (fontColor : SDL_Color) (r g b a : Int)
    (fontPath : String) (s : World) (f : TTF_Font) (sf : SDL_Surface) (t : SDL_Texture)
    (w h : Int)
    (hF : B.openFont fontPath fontSize = some f)
    (hS : B.renderText f text fontColor = some sf)
    (hT : B.createTexture (some sf) = some t)
    (hQ : B.queryTexture t = some (w, h))
    (hr : 0 ≤ r ∧ r ≤ 255) (hg : 0 ≤ g ∧ g ≤ 255) (hb : 0 ≤ b ∧ b ≤ 255)
    (ha : 0 ≤ a ∧ a ≤ 255) :
    (ButtonText B rectX rectY rectWidth rectHeight text fontSize fontColor [r, g, b, a]
        fontPath s).1 = .ok 0 ∧
    (ButtonText B rectX rectY rectWidth rectHeight text fontSize fontColor [r, g, b, a]
        fontPath s).2.cmds
      = s.cmds ++
        [Cmd.setDrawColor r g b a,
         Cmd.fillRect ⟨rectX, rectY, rectWidth, rectHeight⟩,
         Cmd.copy (some t) (fontRect rectX rectY rectWidth rectHeight w h)] ∧
    fontRect rectX rectY rectWidth rectHeight w h
      = ⟨c_sub (c_add rectX (c_div rectWidth 2)) (c_div w 2),
         c_sub (c_add rectY (c_div rectHeight 2)) (c_div h 2), w, h⟩ := by
  simp [ButtonText, TTF_OpenFont, TTF_RenderText_Blended, SDL_CreateTextureFromSurface,
    SDL_QueryTexture, SDL_SetRenderDrawColor, SDL_RenderFillRect, SDL_RenderCopy, acquire,
    fontRect, hF, hS, hT, hQ, toUint8_of_channel hr, toUint8_of_channel hg,
    toUint8_of_channel hb, toUint8_of_channel ha]

/-- Witness of C2: the example call of the header, rectangle `(0, 0, 100, 32)` and
background `(0, 0, 0, 255)`, returns `0` and fills `(0, 0, 100, 32)`; the 51 x 15 text
texture goes to `(25, 9, 51, 15)`. -/
theorem ButtonText_commands_witness :
    (ButtonText goodBackend 0 0 100 32 "TESTE" 14 white [0, 0, 0, 255]
        "assets/fonts/Roboto-Bold.ttf" World.fresh).1 = .ok 0 ∧
    (ButtonText goodBackend 0 0 100 32 "TESTE" 14 white [0, 0, 0, 255]
        "assets/fonts/Roboto-Bold.ttf" World.fresh).2.cmds
      = [Cmd.setDrawColor 0 0 0 255, Cmd.fillRect ⟨0, 0, 100, 32⟩,
         Cmd.copy (some ⟨3⟩) ⟨25, 9, 51, 15⟩] ∧
    fontRect 0 0 100 32 51 15 = ⟨25, 9, 51, 15⟩ :=
  ButtonText_commands goodBackend 0 0 100 32 "TESTE" 14 white 0 0 0 255
    "assets/fonts/Roboto-Bold.ttf" World.fresh ⟨1⟩ ⟨2, 51, 15⟩ ⟨3⟩ 51 15 rfl rfl rfl rfl
    (by decide) (by decide) (by decide) (by decide)

/-- C3. For a button of non-negative width `W` and height `H` and a text texture of
non-negative size `w`, `h`, when the arithmetic of line 83 does not overflow a 32-bit
`int`, the rectangle computed by `ButtonText` for the text has
`x = rectX + W / 2 - w / 2` and `y = rectY + H / 2 - h / 2` (truncating division), and
its centre is within one pixel of the centre of the button on each axis:
`|(2 * x + w) - (2 * rectX + W)| ≤ 2` and `|(2 * y + h) - (2 * rectY + H)| ≤ 2`. -/
theorem fontRect_centred (rectX rectY W H w h : Int)
    (hW : 0 ≤ W) (hH : 0 ≤ H) (hw : 0 ≤ w) (hh : 0 ≤ h)
    (hx : NoOverflow rectX W w) (hy : NoOverflow rectY H h) :
    (fontRect rectX rectY W H w h).x = rectX + Int.tdiv W 2 - Int.tdiv w 2 ∧
    (fontRect rectX rectY W H w h).y = rectY + Int.tdiv H 2 - Int.tdiv h 2 ∧
    (fontRect rectX rectY W H w h).w = w ∧
    (fontRect rectX rectY W H w h).h = h ∧
    |(2 * (fontRect rectX rectY W H w h).x + w) - (2 * rectX + W)| ≤ 2 ∧
    |(2 * (fontRect rectX rectY W H w h).y + h) - (2 * rectY + H)| ≤ 2 := by
  have ex : (fontRect rectX rectY W H w h).x = rectX + W / 2 - w / 2 := by
    show c_sub (c_add rectX (c_div W 2)) (c_div w 2) = _
    rw [centre_coordinate hx, c_div_two_of_nonneg hW, c_div_two_of_nonneg hw]
  have ey : (fontRect rectX rectY W H w h).y = rectY + H / 2 - h / 2 := by
    show c_sub (c_add rectY (c_div H 2)) (c_div h 2) = _
    rw [centre_coordinate hy, c_div_two_of_nonneg hH, c_div_two_of_nonneg hh]
  have tW : Int.tdiv W 2 = W / 2 := c_div_two_of_nonneg hW
  have tH : Int.tdiv H 2 = H / 2 := c_div_two_of_nonneg hH
  have tw : Int.tdiv w 2 = w / 2 := c_div_two_of_nonneg hw
  have th : Int.tdiv h 2 = h / 2 := c_div_two_of_nonneg hh
  refine ⟨by rw [ex, tW, tw], by rw [ey, tH, th], rfl, rfl, ?_, ?_⟩
  · rw [ex]
    exact abs_le.mpr ⟨by omega, by omega⟩
  · rw [ey]
    exact abs_le.mpr ⟨by omega, by omega⟩

/-- Witness of C3: the 51 x 15 text of the example in the 100 x 32 button at the origin. -/
theorem fontRect_centred_witness :
    (fontRect 0 0 100 32 51 15).x = 0 + Int.tdiv 100 2 - Int.tdiv 51 2 ∧
    (fontRect 0 0 100 32 51 15).y = 0 + Int.tdiv 32 2 - Int.tdiv 15 2 ∧
    (fontRect 0 0 100 32 51 15).w = 51 ∧
    (fontRect 0 0 100 32 51 15).h = 15 ∧
    |(2 * (fontRect 0 0 100 32 51 15).x + 51) - (2 * 0 + 100)| ≤ 2 ∧
    |(2 * (fontRect 0 0 100 32 51 15).y + 15) - (2 * 0 + 32)| ≤ 2 :=
  fontRect_centred 0 0 100 32 51 15 (by decide) (by decide) (by decide) (by decide)
    (by decide) (by decide)

/-- C10, as stated, fails: a text 51 pixels wide in a button 100 pixels wide at the
origin, with no overflow anywhere, is placed at `x = 25`, so that twice its centre,
`2 * 25 + 51 = 101`, lies to the right of twice the centre of the button, `100`. -/
theorem fontRect_bias_counterexample :
    (0 : Int) ≤ 100 ∧ (0 : Int) ≤ 32 ∧ (0 : Int) ≤ 51 ∧ (0 : Int) ≤ 15 ∧
    NoOverflow 0 100 51 ∧ NoOverflow 0 32 15 ∧
    (fontRect 0 0 100 32 51 15).x = 25 ∧
    ¬ (2 * (fontRect 0 0 100 32 51 15).x + 51 ≤ 2 * 0 + 100) := by
  decide

/-- C10, amended. For a button of non-negative width `W` and height `H` and a text
texture of non-negative size `w`, `h`, when the arithmetic of line 83 does not overflow,
the offset of the text's centre from the button's centre, in half pixels, is
`w % 2 - W % 2` on the x axis and `h % 2 - H % 2` on the y axis. The text's centre is
therefore at most half a pixel to the right of or below the button's centre, and it is
not to the right (below) whenever the text's width (height) is even or the button's
width (height) is odd. -/
theorem fontRect_bias (rectX rectY W H w h : Int)
    (hW : 0 ≤ W) (hH : 0 ≤ H) (hw : 0 ≤ w) (hh : 0 ≤ h)
    (hx : NoOverflow rectX W w) (hy : NoOverflow rectY H h) :
    (2 * (fontRect rectX rectY W H w h).x + w) - (2 * rectX + W) = w % 2 - W % 2 ∧
    (2 * (fontRect rectX rectY W H w h).y + h) - (2 * rectY + H) = h % 2 - H % 2 ∧
    2 * (fontRect rectX rectY W H w h).x + w ≤ 2 * rectX + W + 1 ∧
    2 * (fontRect rectX rectY W H w h).y + h ≤ 2 * rectY + H + 1 ∧
    (w % 2 = 0 ∨ W % 2 = 1 → 2 * (fontRect rectX rectY W H w h).x + w ≤ 2 * rectX + W) ∧
    (h % 2 = 0 ∨ H % 2 = 1 → 2 * (fontRect rectX rectY W H w h).y + h ≤ 2 * rectY + H) := by
  have ex : (fontRect rectX rectY W H w h).x = rectX + W / 2 - w / 2 := by
    show c_sub (c_add rectX (c_div W 2)) (c_div w 2) = _
    rw [centre_coordinate hx, c_div_two_of_nonneg hW, c_div_two_of_nonneg hw]
  have ey : (fontRect rectX rectY W H w h).y = rectY + H / 2 - h / 2 := by
    show c_sub (c_add rectY (c_div H 2)) (c_div h 2) = _
    rw [centre_coordinate hy, c_div_two_of_nonneg hH, c_div_two_of_nonneg hh]
  rw [ex, ey]
  refine ⟨by omega, by omega, by omega, by omega, ?_, ?_⟩
  · intro hp
    omega
  · intro hp
    omega

/-- Witness of C10, amended: a text of even size, 50 x 16, in the 100 x 32 button at
the origin; the centres coincide on both axes. -/
theorem fontRect_bias_witness :
    (2 * (fontRect 0 0 100 32 50 16).x + 50) - (2 * 0 + 100) = 50 % 2 - 100 % 2 ∧
    (2 * (fontRect 0 0 100 32 50 16).y + 16) - (2 * 0 + 32) = 16 % 2 - 32 % 2 ∧
    2 * (fontRect 0 0 100 32 50 16).x + 50 ≤ 2 * 0 + 100 ∧
    2 * (fontRect 0 0 100 32 50 16).y + 16 ≤ 2 * 0 + 32 :=
  have H := fontRect_bias 0 0 100 32 50 16 (by decide) (by decide) (by decide) (by decide)
    (by decide) (by decide)
  ⟨H.1, H.2.1, H.2.2.2.2.1 (Or.inl (by decide)), H.2.2.2.2.2 (Or.inl (by decide))⟩

/-- C4. Failure is atomic. Whenever `ButtonText` returns `-1`, `-2`, `-3` or `-4`, and
whenever `Text` returns early because the font load, the rasterization or the texture
upload failed, the renderer has received no drawing command, the live resources are
those of before the call, and every resource acquired during the call has been released
exactly once. In particular, when the font does not load, `ButtonText` returns `-1` and
neither function gives the renderer a drawing command. -/
theorem failure_is_atomic (B : Backend) (rectX rectY rectWidth rectHeight : Int)
    (text : String) (fontSize : Int) (fontColor : SDL_Color) (bgColor : List Int)
    (fontPath : String) (fontX fontY : Int) (s : World) :
    (∀ v : Int,
      (ButtonText B rectX rectY rectWidth rectHeight text fontSize fontColor bgColor
        fontPath s).1 = .ok v →
      v = -1 ∨ v = -2 ∨ v = -3 ∨ v = -4 →
      Restored s (ButtonText B rectX rectY rectWidth rectHeight text fontSize fontColor
        bgColor fontPath s).2) ∧
    (B.openFont fontPath fontSize = none ∨
      (∃ f, B.openFont fontPath fontSize = some f ∧ B.renderText f text fontColor = none) ∨
      (∃ f sf, B.openFont fontPath fontSize = some f ∧
        B.renderText f text fontColor = some sf ∧ B.createTexture (some sf) = none) →
      (Text B fontPath fontSize fontColor text fontX fontY s).1 = .ok () ∧
      Restored s (Text B fontPath fontSize fontColor text fontX fontY s).2) ∧
    (B.openFont fontPath fontSize = none →
      (ButtonText B rectX rectY rectWidth rectHeight text fontSize fontColor bgColor
        fontPath s).1 = .ok (-1) ∧
      (ButtonText B rectX rectY rectWidth rectHeight text fontSize fontColor bgColor
        fontPath s).2.cmds = s.cmds ∧
      (Text B fontPath fontSize fontColor text fontX fontY s).2.cmds = s.cmds) := by
  refine ⟨?_, ?_, ?_⟩
  · intro v hv hfail
    cases hF : B.openFont fontPath fontSize with
    | none =>
      refine ⟨?_, ?_, [], List.nodup_nil, ?_, ?_⟩ <;>
        simp [ButtonText, TTF_OpenFont, cout, hF]
    | some f =>
      cases hS : B.renderText f text fontColor with
      | none =>
        refine ⟨?_, ?_, [.font f], by simp, ?_, ?_⟩ <;>
          simp [ButtonText, TTF_OpenFont, TTF_RenderText_Blended, TTF_CloseFont, cout,
            acquire, release, hF, hS]
      | some sf =>
        cases hT : B.createTexture (some sf) with
        | none =>
          refine ⟨?_, ?_, [.surface sf, .font f], by simp, ?_, ?_⟩ <;>
            simp [ButtonText, TTF_OpenFont, TTF_RenderText_Blended,
              SDL_CreateTextureFromSurface, TTF_CloseFont, SDL_FreeSurface, cout, acquire,
              release, hF, hS, hT]
        | some t =>
          cases hQ : B.queryTexture t with
          | none =>
            refine ⟨?_, ?_, [.texture t, .surface sf, .font f], by simp, ?_, ?_⟩ <;>
              simp [ButtonText, TTF_OpenFont, TTF_RenderText_Blended,
                SDL_CreateTextureFromSurface, SDL_QueryTexture, TTF_CloseFont,
                SDL_FreeSurface, SDL_DestroyTexture, cout, acquire, release, hF, hS, hT, hQ]
          | some wh =>
            obtain ⟨w, h⟩ := wh
            exfalso
            revert hv
            simp only [ButtonText, TTF_OpenFont, TTF_RenderText_Blended,
              SDL_CreateTextureFromSurface, SDL_QueryTexture, hF, hS, hT, hQ]
            split
            · intro hv
              simp only [Except.ok.injEq] at hv
              omega
            · intro hv
              simp at hv
  · rintro (hF | ⟨f, hF, hS⟩ | ⟨f, sf, hF, hS, hT⟩)
    · refine ⟨?_, ?_, ?_, [], List.nodup_nil, ?_, ?_⟩ <;>
        simp [Text, TTF_OpenFont, cout, hF]
    · refine ⟨?_, ?_, ?_, [.font f], by simp, ?_, ?_⟩ <;>
        simp [Text, TTF_OpenFont, TTF_RenderText_Blended, TTF_CloseFont, cout, acquire,
          release, hF, hS]
    · refine ⟨?_, ?_, ?_, [.surface sf, .font f], by simp, ?_, ?_⟩ <;>
        simp [Text, TTF_OpenFont, TTF_RenderText_Blended, SDL_CreateTextureFromSurface,
          TTF_CloseFont, SDL_FreeSurface, cout, acquire, release, hF, hS, hT]
  · intro hF
    refine ⟨?_, ?_, ?_⟩ <;> simp [ButtonText, Text, TTF_OpenFont, cout, hF]

/-- Witness of C4: the example calls of the header on a backend that cannot create a
texture (`ButtonText` returns `-3` after acquiring a font and a surface, `Text` returns
early) and on a backend that cannot open the font file. -/
theorem failure_is_atomic_witness :
    Restored World.fresh
      (ButtonText noTextureBackend 0 0 100 32 "TESTE" 14 white [0, 0, 0, 255]
        "assets/fonts/Roboto-Bold.ttf" World.fresh).2 ∧
    ((Text noTextureBackend "assets/fonts/Roboto-Bold.ttf" 14 white "TESTE" 0 0
        World.fresh).1 = .ok () ∧
      Restored World.fresh
        (Text noTextureBackend "assets/fonts/Roboto-Bold.ttf" 14 white "TESTE" 0 0
          World.fresh).2) ∧
    ((ButtonText noFileBackend 0 0 100 32 "TESTE" 14 white [0, 0, 0, 255]
        "assets/fonts/Roboto-Bold.ttf" World.fresh).1 = .ok (-1) ∧
      (ButtonText noFileBackend 0 0 100 32 "TESTE" 14 white [0, 0, 0, 255]
        "assets/fonts/Roboto-Bold.ttf" World.fresh).2.cmds = World.fresh.cmds ∧
      (Text noFileBackend "assets/fonts/Roboto-Bold.ttf" 14 white "TESTE" 0 0
        World.fresh).2.cmds = World.fresh.cmds) :=
  have H := failure_is_atomic noTextureBackend 0 0 100 32 "TESTE" 14 white [0, 0, 0, 255]
    "assets/fonts/Roboto-Bold.ttf" 0 0 World.fresh
  have K := failure_is_atomic noFileBackend 0 0 100 32 "TESTE" 14 white [0, 0, 0, 255]
    "assets/fonts/Roboto-Bold.ttf" 0 0 World.fresh
  ⟨H.1 (-3) rfl (Or.inr (Or.inr (Or.inl rfl))),
   H.2.1 (Or.inr (Or.inr ⟨⟨1⟩, ⟨2, 51, 15⟩, rfl, rfl, rfl⟩)),
   K.2.2 rfl⟩

/-- C5, evaluated on the success path. On a backend where every stage succeeds, the
example calls of the header return normally with every resource they acquired still
live and nothing released: `ButtonText` and `Text` keep a font, a surface and a texture,
`ButtonIcon` keeps a surface and a texture. -/
theorem success_path_releases_nothing :
    ((ButtonText goodBackend 0 0 100 32 "TESTE" 14 white [0, 0, 0, 255]
        "assets/fonts/Roboto-Bold.ttf" World.fresh).1 = .ok 0 ∧
      (ButtonText goodBackend 0 0 100 32 "TESTE" 14 white [0, 0, 0, 255]
        "assets/fonts/Roboto-Bold.ttf" World.fresh).2.acquired
        = [.texture ⟨3⟩, .surface ⟨2, 51, 15⟩, .font ⟨1⟩] ∧
      (ButtonText goodBackend 0 0 100 32 "TESTE" 14 white [0, 0, 0, 255]
        "assets/fonts/Roboto-Bold.ttf" World.fresh).2.released = [] ∧
      (ButtonText goodBackend 0 0 100 32 "TESTE" 14 white [0, 0, 0, 255]
        "assets/fonts/Roboto-Bold.ttf" World.fresh).2.live
        = [.texture ⟨3⟩, .surface ⟨2, 51, 15⟩, .font ⟨1⟩]) ∧
    ((ButtonIcon goodBackend 0 0 100 32 "assets/icons/close.png" [0, 0, 0, 255]
        World.fresh).1 = .ok 0 ∧
      (ButtonIcon goodBackend 0 0 100 32 "assets/icons/close.png" [0, 0, 0, 255]
        World.fresh).2.acquired = [.texture ⟨3⟩, .surface ⟨4, 24, 24⟩] ∧
      (ButtonIcon goodBackend 0 0 100 32 "assets/icons/close.png" [0, 0, 0, 255]
        World.fresh).2.released = [] ∧
      (ButtonIcon goodBackend 0 0 100 32 "assets/icons/close.png" [0, 0, 0, 255]
        World.fresh).2.live = [.texture ⟨3⟩, .surface ⟨4, 24, 24⟩]) ∧
    ((Text goodBackend "assets/fonts/Roboto-Bold.ttf" 14 white "Text here!" 0 0
        World.fresh).1 = .ok () ∧
      (Text goodBackend "assets/fonts/Roboto-Bold.ttf" 14 white "Text here!" 0 0
        World.fresh).2.acquired = [.texture ⟨3⟩, .surface ⟨2, 51, 15⟩, .font ⟨1⟩] ∧
      (Text goodBackend "assets/fonts/Roboto-Bold.ttf" 14 white "Text here!" 0 0
        World.fresh).2.released = [] ∧
      (Text goodBackend "assets/fonts/Roboto-Bold.ttf" 14 white "Text here!" 0 0
        World.fresh).2.live = [.texture ⟨3⟩, .surface ⟨2, 51, 15⟩, .font ⟨1⟩]) :=
  ⟨⟨rfl, rfl, rfl, rfl⟩, ⟨rfl, rfl, rfl, rfl⟩, ⟨rfl, rfl, rfl, rfl⟩⟩

/-- Supporting fact: when `iconPath` decodes to a surface `sf`, the texture `t` is created
from it and `bgColor` has the four elements read on line 130, `ButtonIcon` returns `0`
and its last drawing command copies `t` to `(rectX, rectY, sf.w, sf.h)`. The whole
outcome of a call never depends on `rectWidth` and `rectHeight`. -/
theorem ButtonIcon_copy_of_upload (B : Backend) (rectX rectY rectWidth rectHeight : Int)
    (iconPath : String) (bgColor : List Int) (s : World) (sf : SDL_Surface)
    (t : SDL_Texture)
    (hI : B.imgLoad iconPath = some sf) (hT : B.createTexture (some sf) = some t)
    (hbg : 4 ≤ bgColor.length) :
    (ButtonIcon B rectX rectY rectWidth rectHeight iconPath bgColor s).1 = .ok 0 ∧
    (∃ r g b a : Int,
      (ButtonIcon B rectX rectY rectWidth rectHeight iconPath bgColor s).2.cmds
        = s.cmds ++
          [Cmd.setDrawColor r g b a, Cmd.fillRect ⟨rectX, rectY, 30, 30⟩,
           Cmd.copy (some t) ⟨rectX, rectY, sf.w, sf.h⟩]) ∧
    (∀ rectWidth2 rectHeight2 : Int,
      ButtonIcon B rectX rectY rectWidth2 rectHeight2 iconPath bgColor s
        = ButtonIcon B rectX rectY rectWidth rectHeight iconPath bgColor s) := by
  obtain ⟨r, g, b, a, h0, h1, h2, h3⟩ := channels_of_length hbg
  refine ⟨?_, ⟨toUint8 r, toUint8 g, toUint8 b, toUint8 a, ?_⟩, fun _ _ => rfl⟩
  · simp [ButtonIcon, IMG_Load, SDL_SetSurfaceAlphaMod, SDL_CreateTextureFromSurface,
      hI, hT, h0, h1, h2, h3]
  · simp [ButtonIcon, IMG_Load, SDL_SetSurfaceAlphaMod, SDL_CreateTextureFromSurface,
      SDL_SetRenderDrawColor, SDL_RenderFillRect, SDL_RenderCopy, cout, acquire,
      hI, hT, h0, h1, h2, h3]

/-- C6, evaluated on an icon that decodes while the texture cannot be created. The
call of the header's example decodes `assets/icons/close.png` to a 24 x 24 surface, the
renderer returns no texture for it, and `ButtonIcon` still returns `0`: its copy command
carries the null texture, and no command copies an icon texture to `(0, 0, 24, 24)`. -/
theorem ButtonIcon_null_texture :
    noTextureBackend.imgLoad "assets/icons/close.png" = some ⟨4, 24, 24⟩ ∧
    noTextureBackend.createTexture (some ⟨4, 24, 24⟩) = none ∧
    (ButtonIcon noTextureBackend 0 0 100 32 "assets/icons/close.png" [0, 0, 0, 255]
        World.fresh).1 = .ok 0 ∧
    (ButtonIcon noTextureBackend 0 0 100 32 "assets/icons/close.png" [0, 0, 0, 255]
        World.fresh).2.cmds
      = [Cmd.setDrawColor 0 0 0 255, Cmd.fillRect ⟨0, 0, 30, 30⟩,
         Cmd.copy none ⟨0, 0, 24, 24⟩] ∧
    (∀ t : SDL_Texture, Cmd.copy (some t) ⟨0, 0, 24, 24⟩ ∉
      (ButtonIcon noTextureBackend 0 0 100 32 "assets/icons/close.png" [0, 0, 0, 255]
        World.fresh).2.cmds) := by
  refine ⟨rfl, rfl, rfl, rfl, ?_⟩
  intro t ht
  have hc : (ButtonIcon noTextureBackend 0 0 100 32 "assets/icons/close.png"
      [0, 0, 0, 255] World.fresh).2.cmds
      = [Cmd.setDrawColor 0 0 0 255, Cmd.fillRect ⟨0, 0, 30, 30⟩,
         Cmd.copy none ⟨0, 0, 24, 24⟩] := rfl
  rw [hc] at ht
  simp at ht

/-- C7. When the font loads, the text is rasterized, the texture is created and its size
is queried as `(w, h)`, `Text` returns normally and gives the renderer exactly one
drawing command: the copy of the text texture to `(fontX, fontY, w, h)`. There is no
set-colour and no fill command. -/
theorem Text_commands (B : Backend) (fontPath : String) (fontSize : Int)
    (fontColor : SDL_Color) (text : String) (fontX fontY : Int) (s : World)
    (f : TTF_Font) (sf : SDL_Surface) (t : SDL_Texture) (w h : Int)
    (hF : B.openFont fontPath fontSize = some f)
    (hS : B.renderText f text fontColor = some sf)
    (hT : B.createTexture (some sf) = some t)
    (hQ : B.queryTexture t = some (w, h)) :
    (Text B fontPath fontSize fontColor text fontX fontY s).1 = .ok () ∧
    (Text B fontPath fontSize fontColor text fontX fontY s).2.cmds
      = s.cmds ++ [Cmd.copy (some t) ⟨fontX, fontY, w, h⟩] := by
  simp [Text, TTF_OpenFont, TTF_RenderText_Blended, SDL_CreateTextureFromSurface,
    SDL_QueryTexture, SDL_RenderCopy, acquire, hF, hS, hT, hQ]

/-- Witness of C7: the example call of the header, moved to `(7, 9)`. -/
theorem Text_commands_witness :
    (Text goodBackend "assets/fonts/Roboto-Bold.ttf" 14 white "Text here!" 7 9
        World.fresh).1 = .ok () ∧
    (Text goodBackend "assets/fonts/Roboto-Bold.ttf" 14 white "Text here!" 7 9
        World.fresh).2.cmds = [Cmd.copy (some ⟨3⟩) ⟨7, 9, 51, 15⟩] :=
  Text_commands goodBackend "assets/fonts/Roboto-Bold.ttf" 14 white "Text here!" 7 9
    World.fresh ⟨1⟩ ⟨2, 51, 15⟩ ⟨3⟩ 51 15 rfl rfl rfl rfl

/-- C8, evaluated on a file that does not decode. `ButtonIcon` does not stop at the
null surface: it asks the renderer for a texture of the null surface and then reads the
width of the null surface, which is undefined behaviour; no status is returned. -/
theorem ButtonIcon_null_surface :
    noFileBackend.imgLoad "assets/icons/missing.png" = none ∧
    (ButtonIcon noFileBackend 0 0 100 32 "assets/icons/missing.png" [0, 0, 0, 255]
        World.fresh).1 = .error .nullDereference ∧
    (ButtonIcon noFileBackend 0 0 100 32 "assets/icons/missing.png" [0, 0, 0, 255]
        World.fresh).2.uploads = [none] :=
  ⟨rfl, rfl, rfl⟩

/-- C9, evaluated on the example call of the header. `ButtonIcon` called with the
rectangle `(0, 0, 100, 32)` sets the colour `(0, 0, 0, 255)` and then fills the
rectangle `(0, 0, 30, 30)`; the rectangle `(0, 0, 100, 32)` is never filled. -/
theorem ButtonIcon_fills_30_by_30 :
    (ButtonIcon goodBackend 0 0 100 32 "assets/icons/close.png" [0, 0, 0, 255]
        World.fresh).1 = .ok 0 ∧
    (ButtonIcon goodBackend 0 0 100 32 "assets/icons/close.png" [0, 0, 0, 255]
        World.fresh).2.cmds
      = [Cmd.setDrawColor 0 0 0 255, Cmd.fillRect ⟨0, 0, 30, 30⟩,
         Cmd.copy (some ⟨3⟩) ⟨0, 0, 24, 24⟩] ∧
    Cmd.fillRect ⟨0, 0, 100, 32⟩ ∉
      (ButtonIcon goodBackend 0 0 100 32 "assets/icons/close.png" [0, 0, 0, 255]
        World.fresh).2.cmds :=
  ⟨rfl, rfl, by decide⟩

end ElementRendering_SDL
